import Mathlib

/-! Verification of the bundler service: deterministic bundle construction,
revision hashing, archive layout, the refresher loop, and the HTTP
conditional-GET serving front.  Definitions are a shallow embedding of
the Rust source (src/bundler/src/bundle.rs and src/bundler/src/main.rs);
machine integers are modelled as Nat with explicit reduction mod 2^64.
-/

namespace Bundler

/-! Word arithmetic mod 2^64, modelling Rust u64 operations. -/

/-- Modulus of 64-bit words. -/
def U64 : Nat := 2 ^ 64

/-- Wrapping 64-bit addition. -/
def wadd (a b : Nat) : Nat := (a + b) % U64

/-- Bitwise xor, reduced mod 2^64 (the reduction is a no-op on in-range inputs). -/
def wxor (a b : Nat) : Nat := (a ^^^ b) % U64

/-- Left rotation of a 64-bit word by n bits. -/
def rotl (a n : Nat) : Nat := (a * 2 ^ n + a / 2 ^ (64 - n)) % U64

/-! SipHash-1-3 with both keys zero: the algorithm of
std::collections::hash_map::DefaultHasher::new(), which Bundle::new uses
to compute the revision hash.
-/

/-- Internal state of the SipHash permutation: four 64-bit words. -/
structure SipState where
  v0 : Nat
  v1 : Nat
  v2 : Nat
  v3 : Nat
deriving DecidableEq

/-- One SIPROUND permutation of the four-word state. -/
def sipRound (s : SipState) : SipState :=
  let v0 := wadd s.v0 s.v1
  let v1 := rotl s.v1 13
  let v1 := wxor v1 v0
  let v0 := rotl v0 32
  let v2 := wadd s.v2 s.v3
  let v3 := rotl s.v3 16
  let v3 := wxor v3 v2
  let v0 := wadd v0 v3
  let v3 := rotl v3 21
  let v3 := wxor v3 v0
  let v2 := wadd v2 v1
  let v1 := rotl v1 17
  let v1 := wxor v1 v2
  let v2 := rotl v2 32
  ⟨v0, v1, v2, v3⟩

/-- Absorption of one 8-byte message word with c = 1 compression round (SipHash-1-3). -/
def sipCompress (s : SipState) (m : Nat) : SipState :=
  let pre := { s with v3 := wxor s.v3 m }
  let mid := sipRound pre
  { mid with v0 := wxor mid.v0 m }

/-- Little-endian value of a byte list (first byte is least significant). -/
def leBytes (l : List Nat) : Nat := l.foldr (fun b acc => b % 256 + 256 * acc) 0

/-- Streaming hasher state: SipHash state, pending tail bytes (fewer than 8), total length. -/
structure Hasher where
  state : SipState
  buf : List Nat
  len : Nat
deriving DecidableEq

/-- Initial hasher: SipHash initialization constants xored with keys k0 = k1 = 0, as
produced by DefaultHasher::new(). -/
def hasherInit : Hasher :=
  ⟨⟨0x736f6d6570736575, 0x646f72616e646f6d, 0x6c7967656e657261, 0x7465646279746573⟩, [], 0⟩

/-- Feed one byte to the hasher; a full 8-byte block is compressed immediately. -/
def hasherStep (h : Hasher) (b : Nat) : Hasher :=
  let buf := h.buf ++ [b % 256]
  if buf.length = 8 then ⟨sipCompress h.state (leBytes buf), [], h.len + 1⟩
  else ⟨h.state, buf, h.len + 1⟩

/-- Feed a byte list to the hasher (Hasher::write). -/
def hasherWrite (h : Hasher) (l : List Nat) : Hasher := l.foldl hasherStep h

/-- Finalization (Hasher::finish): absorb the final block carrying the length byte,
xor 0xff into v2, run d = 3 rounds, xor the four words together. -/
def hasherFinish (h : Hasher) : Nat :=
  let b := wadd ((h.len % 256) * 2 ^ 56) (leBytes h.buf)
  let s1 := sipCompress h.state b
  let s2 := { s1 with v2 := wxor s1.v2 0xff }
  let s3 := sipRound (sipRound (sipRound s2))
  wxor (wxor (wxor s3.v0 s3.v1) s3.v2) s3.v3

/-- Hash of a whole byte stream with DefaultHasher (SipHash-1-3, zero keys). -/
def defaultHash (l : List Nat) : Nat := hasherFinish (hasherWrite hasherInit l)

/-! Relation snapshots.  The permissionables module (Proposals, Sessions,
Permissions and their Hash/Serialize implementations) is repository code
that is not under src/.
-/

instance {ε α : Type} [DecidableEq ε] [DecidableEq α] : DecidableEq (Except ε α) := fun a b =>
  match a, b with
  | .ok x, .ok y =>
    if h : x = y then isTrue (by rw [h]) else isFalse (fun c => by cases c; exact h rfl)
  | .error x, .error y =>
    if h : x = y then isTrue (by rw [h]) else isFalse (fun c => by cases c; exact h rfl)
  | .ok _, .error _ => isFalse (fun c => by cases c)
  | .error _, .ok _ => isFalse (fun c => by cases c)

/-- Modelled from the spec: the proposals snapshot of the missing permissionables
module is opaque to the core beyond a stable hash contribution (the byte stream its
Hash implementation writes) and a stable JSON serialization (which may fail). -/
structure Proposals where
  hashBytes : List Nat
  json : Except String (List Nat)
deriving DecidableEq

/-- Modelled from the spec: the sessions snapshot, opaque with a stable hash
contribution and a stable JSON serialization. -/
structure Sessions where
  hashBytes : List Nat
  json : Except String (List Nat)
deriving DecidableEq

/-- Modelled from the spec: the permissions snapshot, opaque with a stable hash
contribution and a stable JSON serialization. -/
structure Permissions where
  hashBytes : List Nat
  json : Except String (List Nat)
deriving DecidableEq

/-- Interface of a metadata value: its Hash contribution (byte stream written to the
hasher) and its JSON serialization, mirroring the Rust bounds Hash + Serialize. -/
class MetaValue (α : Type) where
  hashBytes : α → List Nat
  json : α → Except String (List Nat)

/-- UTF-8 bytes of a string; every string built here is ASCII, where code points and
UTF-8 bytes coincide. -/
def utf8Bytes (s : String) : List Nat := s.toList.map Char.toNat

/-- Unit struct NoMetadata: derives Hash (writes nothing) and Serialize (serde
encodes a unit struct as JSON null). -/
structure NoMetadata where
deriving DecidableEq

instance : MetaValue NoMetadata where
  hashBytes _ := []
  json _ := .ok (utf8Bytes "null")

/-! Manifest and Bundle, from src/bundler/src/bundle.rs.
-/

/-- Record of one wasm module reference in the manifest (always unused: the
manifest is built with an empty wasm list). -/
structure WasmModule where
  entrypoint : String
  moduleName : String
deriving DecidableEq

/-- Manifest written to the .manifest archive entry. -/
structure Manifest (α : Type) where
  revision : String
  roots : List String
  wasm : List WasmModule
  metadata : α
deriving DecidableEq

/-- Bundle aggregate: manifest plus the three snapshots. -/
structure Bundle (α : Type) where
  manifest : Manifest α
  proposals : Proposals
  sessions : Sessions
  permissions : Permissions
deriving DecidableEq

/-- Modelled from the spec: the crate package version (built_info::PKG_VERSION is
generated code not under src/); its concrete value is immaterial to every claim. -/
def PKG_VERSION : String := "0.1.0"

/-- Constant path prefix of the data entries, named BUNDLE_PREFIX in the source. -/
def BUNDLE_ROOT : String := "diamond/data"

/-- Escape of one character inside a JSON string literal; the strings serialized
here (revision, paths) contain no control characters. -/
def jsonEscapeChar (c : Char) : List Char :=
  if c = '"' ∨ c = '\\' then ['\\', c] else [c]

/-- JSON string literal. -/
def jsonStringLit (s : String) : String :=
  "\"" ++ String.mk (s.toList.foldr (fun c acc => jsonEscapeChar c ++ acc) []) ++ "\""

/-- JSON array of string literals. -/
def jsonStringArray (l : List String) : String :=
  "[" ++ String.intercalate "," (l.map jsonStringLit) ++ "]"

/-- JSON object for one WasmModule (serde field order: entrypoint, module). -/
def jsonWasmModule (w : WasmModule) : String :=
  "\x7b\"entrypoint\":" ++ jsonStringLit w.entrypoint ++ ",\"module\":" ++
    jsonStringLit w.moduleName ++ "\x7d"

/-- JSON array of WasmModule objects. -/
def jsonWasmArray (l : List WasmModule) : String :=
  "[" ++ String.intercalate "," (l.map jsonWasmModule) ++ "]"

/-- JSON bytes of the manifest (serde_json::to_vec of Manifest, field order
revision, roots, wasm, metadata); fails exactly when the metadata serialization
fails. -/
def manifestJsonBytes {α : Type} [MetaValue α] (m : Manifest α) : Except String (List Nat) := do
  let metaJson ← MetaValue.json m.metadata
  pure (utf8Bytes ("\x7b\"revision\":" ++ jsonStringLit m.revision ++ ",\"roots\":" ++
    jsonStringArray m.roots ++ ",\"wasm\":" ++ jsonWasmArray m.wasm ++ ",\"metadata\":") ++
    metaJson ++ utf8Bytes "\x7d")

/-- Construction of a Bundle (Bundle::new): hash metadata, proposals, sessions,
permissions in that order into a fresh DefaultHasher, then build the manifest with
revision "PKG_VERSION:hash". -/
def Bundle.new {α : Type} [MetaValue α] (metadata : α) (proposals : Proposals)
    (sessions : Sessions) (permissions : Permissions) : Bundle α :=
  let h0 := hasherInit
  let h1 := hasherWrite h0 (MetaValue.hashBytes metadata)
  let h2 := hasherWrite h1 proposals.hashBytes
  let h3 := hasherWrite h2 sessions.hashBytes
  let h4 := hasherWrite h3 permissions.hashBytes
  let hash := hasherFinish h4
  { manifest :=
      { revision := PKG_VERSION ++ ":" ++ toString hash
        roots := [BUNDLE_ROOT]
        wasm := []
        metadata := metadata }
    proposals := proposals
    sessions := sessions
    permissions := permissions }

/-- Revision accessor (Bundle::revision). -/
def Bundle.revision {α : Type} (b : Bundle α) : String := b.manifest.revision

/-- Modelled from the spec: the provider error, ConnectionError or QueryError
(sqlx::Error in the source, whose crate is external). -/
inductive SqlError where
| connection (msg : String)
| query (msg : String)
deriving DecidableEq

/-- Modelled from the spec: a DataProvider supplies the three relation snapshots on
demand, each fetch returning a snapshot or failing (Proposals::fetch,
Sessions::fetch, Permissions::fetch live in the missing permissionables module). -/
structure DataProvider where
  proposals : Except SqlError Proposals
  sessions : Except SqlError Sessions
  permissions : Except SqlError Permissions

/-- Fetch of a Bundle (Bundle::fetch): the three snapshot fetches in order, each
propagating its error, then Bundle::new. -/
def Bundle.fetch {α : Type} [MetaValue α] (metadata : α) (pool : DataProvider) :
    Except SqlError (Bundle α) := do
  let proposals ← pool.proposals
  let sessions ← pool.sessions
  let permissions ← pool.permissions
  pure (Bundle.new metadata proposals sessions permissions)

/-! Archive serialization (Bundle::to_tar_gz).  The tar and flate2 crates are
external collaborators: the gzip-compressed tar blob is modelled structurally
as its compression level together with its ordered entry list, each entry
carrying the header the source populates (exact byte size, checksum set).
-/

/-- Tar entry header as populated by Header::from_bytes: GNU header with the exact
byte size set and the checksum computed. -/
structure TarHeader where
  size : Nat
  cksumSet : Bool
deriving DecidableEq

/-- Header::from_bytes for a data slice. -/
def TarHeader.fromBytes (l : List Nat) : TarHeader := ⟨l.length, true⟩

/-- One archive entry: header, path, contents. -/
structure TarEntry where
  header : TarHeader
  path : String
  data : List Nat
deriving DecidableEq

/-- Structural model of the gzip-compressed tar blob: the fixed compression level
(9 = Compression::best()) and the ordered entries. -/
structure TarGz where
  compressionLevel : Nat
  entries : List TarEntry
deriving DecidableEq

/-- Serialization of a Bundle (Bundle::to_tar_gz): JSON-encode the manifest and the
three snapshots, appending the four entries in fixed order with headers recording
the exact sizes; any encoding failure aborts the whole serialization. -/
def Bundle.to_tar_gz {α : Type} [MetaValue α] (b : Bundle α) : Except String TarGz := do
  let manifest ← manifestJsonBytes b.manifest
  let proposals ← b.proposals.json
  let sessions ← b.sessions.json
  let permissions ← b.permissions.json
  pure ⟨9,
    [⟨TarHeader.fromBytes manifest, ".manifest", manifest⟩,
     ⟨TarHeader.fromBytes proposals, BUNDLE_ROOT ++ "/users/proposals/data.json", proposals⟩,
     ⟨TarHeader.fromBytes sessions, BUNDLE_ROOT ++ "/users/sessions/data.json", sessions⟩,
     ⟨TarHeader.fromBytes permissions, BUNDLE_ROOT ++ "/users/permissions/data.json", permissions⟩]⟩

/-! Serving front, from src/bundler/src/main.rs.
-/

/-- Pair of a Bundle and its serialized archive (struct BundleFile); CurrentState
is an RwLock holding one such pair. -/
structure BundleFile (α : Type) where
  bundle : Bundle α
  file : TarGz
deriving DecidableEq

/-- Conversion of a Bundle into a BundleFile (TryFrom for BundleFile): serialize the
archive, keep the bundle alongside it; fails when serialization fails. -/
def BundleFile.tryFrom {α : Type} [MetaValue α] (b : Bundle α) : Except String (BundleFile α) := do
  let file ← b.to_tar_gz
  pure ⟨b, file⟩

/-- Entity tag: weakness flag and the opaque tag text (headers::ETag /
headers crate EntityTag). -/
structure EntityTag where
  weak : Bool
  tag : String
deriving DecidableEq

/-- Decoded If-None-Match header (headers crate EntityTagRange): the wildcard, or
the raw comma-separated items; items that fail to parse as entity tags are skipped
at match time, exactly as the crate does. -/
inductive IfNoneMatch where
| any
| tags (items : List String)
deriving DecidableEq

/-- Validity of a character inside a quoted entity tag, per RFC 7232 etagc
(0x21, 0x23-0x7E, obs-text). -/
def etagChar (c : Char) : Bool :=
  c.toNat = 0x21 ∨ (0x23 ≤ c.toNat ∧ c.toNat ≤ 0x7E) ∨ (0x80 ≤ c.toNat ∧ c.toNat ≤ 0xFF)

/-- Parse of the quoted part of an entity tag: the characters up to a closing
double quote, all of which must be valid etagc. -/
def parseQuoted (weak : Bool) (cs : List Char) : Option EntityTag :=
  match cs.reverse with
  | '"' :: revInner =>
    let inner := revInner.reverse
    if inner.all etagChar then some ⟨weak, String.mk inner⟩ else none
  | _ => none

/-- Parse of one entity tag (headers crate EntityTag::parse): an optional W/ weak
marker followed by a double-quoted opaque tag. -/
def parseEntityTag (s : String) : Option EntityTag :=
  match s.toList with
  | '"' :: rest => parseQuoted false rest
  | 'W' :: '/' :: '"' :: rest => parseQuoted true rest
  | _ => none

/-- Whitespace allowed around comma-separated header items. -/
def isOWS (c : Char) : Bool := c = ' ' ∨ c = '\t'

/-- Split of a header value on commas. -/
def splitCommas (cs : List Char) : List (List Char) :=
  cs.foldr
    (fun c acc =>
      if c = ',' then [] :: acc
      else
        match acc with
        | h :: t => (c :: h) :: t
        | [] => [[c]])
    [[]]

/-- Trim of optional whitespace at both ends of an item. -/
def trimOWS (cs : List Char) : List Char :=
  ((cs.dropWhile isOWS).reverse.dropWhile isOWS).reverse

/-- Decode of a present If-None-Match header value (headers crate TryFromValues for
EntityTagRange): the exact value "*" is the wildcard, anything else is kept as its
comma-separated trimmed items; decoding a present header never fails. -/
def decodeIfNoneMatch (s : String) : IfNoneMatch :=
  if s = "*" then .any
  else .tags ((splitCommas s.toList).map (fun cs => String.mk (trimOWS cs)))

/-- Weak comparison of entity tags (RFC 7232): opaque tags equal, weakness ignored. -/
def EntityTag.weakEq (a b : EntityTag) : Bool := a.tag == b.tag

/-- Strong comparison of entity tags (RFC 7232): both strong and opaque tags equal. -/
def EntityTag.strongEq (a b : EntityTag) : Bool := !a.weak && !b.weak && a.tag == b.tag

/-- Weak match of an If-None-Match header against an entity tag (headers crate
EntityTagRange::matches_weak): the wildcard matches everything, otherwise some item
parses to a tag weakly equal to the given one. -/
def IfNoneMatch.matchesWeak (i : IfNoneMatch) (e : EntityTag) : Bool :=
  match i with
  | .any => true
  | .tags items =>
    items.any (fun s =>
      match parseEntityTag s with
      | some t => t.weakEq e
      | none => false)

/-- Precondition check (headers crate IfNoneMatch::precondition_passes): the request
should receive the representation iff no weak match exists. -/
def IfNoneMatch.preconditionPasses (i : IfNoneMatch) (e : EntityTag) : Bool :=
  ! i.matchesWeak e

/-- Response body: empty (Bytes::new()) or the archive blob. -/
inductive Body where
| empty
| archive (a : TarGz)
deriving DecidableEq

/-- HTTP response as the endpoint produces it: status code, ETag header value, body. -/
structure HttpResponse where
  status : Nat
  etagHeader : String
  body : Body
deriving DecidableEq

/-- Quoted form of the revision, as formatted into the ETag and sent in the header. -/
def quoteETag (rev : String) : String := "\"" ++ rev ++ "\""

/-- Endpoint body (bundle_endpoint).  The source acquires the read lock twice: once
to format the ETag from the current revision, and a second time to clone the archive
bytes for a 200 body; read1 and read2 are the pairs observed at those two
acquisitions (equal when no swap intervenes). -/
def bundle_endpoint {α : Type} (read1 read2 : BundleFile α)
    (ifNoneMatch : Option IfNoneMatch) : HttpResponse :=
  let etag : EntityTag := ⟨false, read1.bundle.revision⟩
  let headerVal := quoteETag read1.bundle.revision
  match ifNoneMatch with
  | some inm =>
    if ! inm.preconditionPasses etag then ⟨304, headerVal, .empty⟩
    else ⟨200, headerVal, .archive read2.file⟩
  | none => ⟨200, headerVal, .archive read2.file⟩

/-- Endpoint on the raw optional header value: a present header is decoded (never
failing, so a malformed header is never a request error), an absent one stays
absent. -/
def bundle_endpoint_raw {α : Type} (read1 read2 : BundleFile α)
    (header : Option String) : HttpResponse :=
  bundle_endpoint read1 read2 (header.map decodeIfNoneMatch)

/-- Execution of the endpoint under a concurrent refresher: history is the sequence
of pairs successively held by CurrentState (each swap appends one), and the two read
acquisitions observe positions i and then j, which can only move forward.  Returns
none for observation indices no interleaving can produce. -/
def runWithInterleaving {α : Type} (history : List (BundleFile α)) (i j : Nat)
    (ifNoneMatch : Option IfNoneMatch) : Option HttpResponse :=
  match history[i]?, history[j]? with
  | some r1, some r2 => if i ≤ j then some (bundle_endpoint r1 r2 ifNoneMatch) else none
  | _, _ => none

/-! Refresher (update_bundle) and startup (main, fetch_initial_bundle).
-/

/-- Return time of tokio sleep_until: the deadline, or immediately (the current
time) when the deadline already passed. -/
def sleep_until (now deadline : Nat) : Nat := max now deadline

/-- One iteration of the update_bundle loop after its sleep returns, given the tick
fetch outcome: the deadline advances by exactly the polling interval (computed from
the previous deadline, before the fetch), then the fetch result and the serialization
are both unwrapped — a failure of either panics the refresher task (main then
propagates the panic through JoinSet and the process exits), so the iteration yields
no successor state and the cell is never written on failure. -/
def update_bundle_tick {α : Type} [MetaValue α] (polling : Nat) (nextFetch : Nat)
    (fetchRes : Except SqlError (Bundle α)) : Option (BundleFile α × Nat) :=
  let nextFetch2 := nextFetch + polling
  match fetchRes with
  | .error _ => none
  | .ok b =>
    match BundleFile.tryFrom b with
    | .error _ => none
    | .ok bf => some (bf, nextFetch2)

/-- Timing skeleton of the refresher: given the start instant, the polling interval
and the per-tick work durations, produce for every tick its deadline, its fire time
(sleep_until of the previous completion and the deadline) and its completion. -/
def refresherSchedule (deadline prevCompletion polling : Nat) :
    List Nat → List (Nat × Nat × Nat)
  | [] => []
  | d :: rest =>
    let fire := sleep_until prevCompletion deadline
    let comp := fire + d
    (deadline, fire, comp) :: refresherSchedule (deadline + polling) comp polling rest

/-- Outcome of process startup: fatal exit before serving, or serving with an
initial pair installed. -/
inductive StartupOutcome (α : Type) where
| fatal
| serving (cell : BundleFile α)
deriving DecidableEq

/-- Initial fetch (fetch_initial_bundle): the fetch result is unwrapped — an error
panics before anything is built — and a successful bundle is converted to a
BundleFile, whose serialization error is returned to the caller. -/
def fetch_initial_bundle {α : Type} [MetaValue α] (fetchRes : Except SqlError (Bundle α)) :
    Option (Except String (BundleFile α)) :=
  match fetchRes with
  | .error _ => none
  | .ok b => some (BundleFile.tryFrom b)

/-- Startup path of main: fetch_initial_bundle runs to completion (unwrapped) before
the router is built and before either task is spawned, so serving begins only with a
good initial pair in CurrentState; a panic inside fetch_initial_bundle or an error
unwrapped by main is fatal. -/
def main_startup {α : Type} [MetaValue α] (fetchRes : Except SqlError (Bundle α)) :
    StartupOutcome α :=
  match fetch_initial_bundle fetchRes with
  | none => .fatal
  | some (.error _) => .fatal
  | some (.ok bf) => .serving bf

/-! Concrete sample data used by witnesses and counterexamples, and spec-side
comparison definitions.
-/

/-- Sample proposals snapshot. -/
def sampleProposals : Proposals := ⟨[1, 2, 3], .ok (utf8Bytes "[\x7b\"id\":1\x7d]")⟩

/-- Sample sessions snapshot. -/
def sampleSessions : Sessions := ⟨[4, 5], .ok (utf8Bytes "[]")⟩

/-- Sample permissions snapshot. -/
def samplePermissions : Permissions := ⟨[6], .ok (utf8Bytes "[]")⟩

/-- Second sample proposals snapshot, with different data. -/
def sampleProposalsB : Proposals := ⟨[9, 9, 9], .ok (utf8Bytes "[\x7b\"id\":2\x7d]")⟩

/-- Proposals snapshot whose JSON serialization fails. -/
def badProposals : Proposals := ⟨[7], .error "unencodable"⟩

/-- Bundle built from the first sample inputs. -/
def bundleA : Bundle NoMetadata := Bundle.new ⟨⟩ sampleProposals sampleSessions samplePermissions

/-- Bundle built from the second sample inputs. -/
def bundleB : Bundle NoMetadata := Bundle.new ⟨⟩ sampleProposalsB sampleSessions samplePermissions

/-- Bundle whose serialization fails. -/
def bundleBad : Bundle NoMetadata := Bundle.new ⟨⟩ badProposals sampleSessions samplePermissions

/-- Archive of bundleA (the ok value of its serialization). -/
def tarA : TarGz := (bundleA.to_tar_gz).toOption.getD ⟨0, []⟩

/-- Archive of bundleB. -/
def tarB : TarGz := (bundleB.to_tar_gz).toOption.getD ⟨0, []⟩

/-- BundleFile pair for bundleA. -/
def bfA : BundleFile NoMetadata := ⟨bundleA, tarA⟩

/-- BundleFile pair for bundleB. -/
def bfB : BundleFile NoMetadata := ⟨bundleB, tarB⟩

/-- Manifest JSON bytes of bundleA (the ok value). -/
def mjA : List Nat := (manifestJsonBytes bundleA.manifest).toOption.getD []

/-- Sample provider in which every fetch succeeds. -/
def poolOk : DataProvider := ⟨.ok sampleProposals, .ok sampleSessions, .ok samplePermissions⟩

/-- Sample provider in which the sessions fetch fails. -/
def poolFail : DataProvider := ⟨.ok sampleProposals, .error (.query "boom"), .ok samplePermissions⟩

/-- Schedule of the update_bundle loop: the first deadline is start + polling
(Instant::now().add(polling_interval)) and the loop begins with no pending work. -/
def update_bundle_schedule (start polling : Nat) (durs : List Nat) : List (Nat × Nat × Nat) :=
  refresherSchedule (start + polling) start polling durs

/-- Strong-match test of a raw If-None-Match header value against the current
revision, per the RFC 7232 strong comparison (both tags unweakened and equal);
stated here to compare the claimed strong matching with the weak matching of the code. -/
def headerHasStrongMatch (s rev : String) : Bool :=
  match decodeIfNoneMatch s with
  | .any => false
  | .tags items =>
    items.any (fun it =>
      match parseEntityTag it with
      | some t => t.strongEq ⟨false, rev⟩
      | none => false)

/-! Helper lemmas.
-/

theorem U64_pos : 0 < U64 := by decide

theorem wxor_lt (a b : Nat) : wxor a b < U64 := Nat.mod_lt _ U64_pos

theorem hasherFinish_lt (h : Hasher) : hasherFinish h < U64 := wxor_lt _ _

theorem defaultHash_lt (l : List Nat) : defaultHash l < U64 := hasherFinish_lt _

theorem hasherWrite_append (h : Hasher) (a b : List Nat) :
    hasherWrite h (a ++ b) = hasherWrite (hasherWrite h a) b := by
  simp [hasherWrite, List.foldl_append]


/-! Claims about the build pipeline.
-/

/-- C4: two invocations of the build and serialize pipeline on identical inputs
(metadata, proposals, sessions, permissions) produce identical revision strings and
byte-identical archives. -/
theorem bundle_pipeline_deterministic {α : Type} [MetaValue α]
    (m1 m2 : α) (p1 p2 : Proposals) (s1 s2 : Sessions) (q1 q2 : Permissions)
    (hm : m1 = m2) (hp : p1 = p2) (hs : s1 = s2) (hq : q1 = q2) :
    (Bundle.new m1 p1 s1 q1).revision = (Bundle.new m2 p2 s2 q2).revision ∧
    (Bundle.new m1 p1 s1 q1).to_tar_gz = (Bundle.new m2 p2 s2 q2).to_tar_gz := by
  subst hm
  subst hp
  subst hs
  subst hq
  exact ⟨rfl, rfl⟩

/-- Witness for C4 at concrete inputs. -/
theorem bundle_pipeline_deterministic_witness :
    (Bundle.new (⟨⟩ : NoMetadata) sampleProposals sampleSessions samplePermissions).revision =
      (Bundle.new (⟨⟩ : NoMetadata) sampleProposals sampleSessions samplePermissions).revision ∧
    (Bundle.new (⟨⟩ : NoMetadata) sampleProposals sampleSessions samplePermissions).to_tar_gz =
      (Bundle.new (⟨⟩ : NoMetadata) sampleProposals sampleSessions samplePermissions).to_tar_gz :=
  bundle_pipeline_deterministic (⟨⟩ : NoMetadata) ⟨⟩ sampleProposals sampleProposals
    sampleSessions sampleSessions samplePermissions samplePermissions rfl rfl rfl rfl

/-- C5: the revision of a constructed Bundle is the package version, a colon, and
the 64-bit DefaultHasher value of the hash contributions in the fixed order
metadata, proposals, sessions, permissions. -/
theorem revision_format {α : Type} [MetaValue α]
    (m : α) (p : Proposals) (s : Sessions) (q : Permissions) :
    (Bundle.new m p s q).revision =
      PKG_VERSION ++ ":" ++
        toString (defaultHash
          (MetaValue.hashBytes m ++ p.hashBytes ++ s.hashBytes ++ q.hashBytes)) ∧
    defaultHash (MetaValue.hashBytes m ++ p.hashBytes ++ s.hashBytes ++ q.hashBytes) < 2 ^ 64 := by
  constructor
  · simp [Bundle.new, Bundle.revision, defaultHash, hasherWrite_append]
  · exact defaultHash_lt _

/-- C6: the serialized archive is the gzip blob at the fixed best compression level
holding exactly four entries in fixed order: .manifest, then the proposals, sessions
and permissions data.json entries under the constant root, each holding the JSON
encoding of the corresponding field, with headers recording the exact byte sizes. -/
theorem to_tar_gz_layout {α : Type} [MetaValue α] (b : Bundle α) (mj pj sj qj : List Nat)
    (hm : manifestJsonBytes b.manifest = .ok mj) (hp : b.proposals.json = .ok pj)
    (hs : b.sessions.json = .ok sj) (hq : b.permissions.json = .ok qj) :
    b.to_tar_gz = .ok ⟨9,
      [⟨⟨mj.length, true⟩, ".manifest", mj⟩,
       ⟨⟨pj.length, true⟩, BUNDLE_ROOT ++ "/users/proposals/data.json", pj⟩,
       ⟨⟨sj.length, true⟩, BUNDLE_ROOT ++ "/users/sessions/data.json", sj⟩,
       ⟨⟨qj.length, true⟩, BUNDLE_ROOT ++ "/users/permissions/data.json", qj⟩]⟩ := by
  simp only [Bundle.to_tar_gz, hm, hp, hs, hq, TarHeader.fromBytes]
  rfl

set_option maxHeartbeats 4000000 in
/-- Witness for C6 at the sample bundle. -/
theorem to_tar_gz_layout_witness :
    Bundle.to_tar_gz bundleA = .ok ⟨9,
      [⟨⟨mjA.length, true⟩, ".manifest", mjA⟩,
       ⟨⟨(utf8Bytes "[\x7b\"id\":1\x7d]").length, true⟩,
         BUNDLE_ROOT ++ "/users/proposals/data.json", utf8Bytes "[\x7b\"id\":1\x7d]"⟩,
       ⟨⟨(utf8Bytes "[]").length, true⟩,
         BUNDLE_ROOT ++ "/users/sessions/data.json", utf8Bytes "[]"⟩,
       ⟨⟨(utf8Bytes "[]").length, true⟩,
         BUNDLE_ROOT ++ "/users/permissions/data.json", utf8Bytes "[]"⟩]⟩ :=
  to_tar_gz_layout bundleA mjA (utf8Bytes "[\x7b\"id\":1\x7d]") (utf8Bytes "[]")
    (utf8Bytes "[]") rfl rfl rfl rfl

/-- C7: Bundle::fetch is all-or-nothing: when all three snapshot fetches succeed it
returns the Bundle built from them and the metadata; when any fails it returns the
error of the provider and no Bundle. -/
theorem fetch_all_or_nothing {α : Type} [MetaValue α] (m : α) (pool : DataProvider) :
    (∀ p s q, pool.proposals = .ok p → pool.sessions = .ok s → pool.permissions = .ok q →
      Bundle.fetch m pool = .ok (Bundle.new m p s q)) ∧
    (((∃ e, pool.proposals = .error e) ∨ (∃ e, pool.sessions = .error e) ∨
        (∃ e, pool.permissions = .error e)) →
      ∃ e, Bundle.fetch m pool = .error e ∧
        (pool.proposals = .error e ∨ pool.sessions = .error e ∨ pool.permissions = .error e)) := by
  constructor
  · intro p s q hp hs hq
    simp only [Bundle.fetch, hp, hs, hq]
    rfl
  · intro h
    cases hpp : pool.proposals with
    | error e0 => exact ⟨e0, by simp only [Bundle.fetch, hpp]; rfl, Or.inl rfl⟩
    | ok p =>
      cases hps : pool.sessions with
      | error e0 =>
        exact ⟨e0, by simp only [Bundle.fetch, hpp, hps]; rfl, Or.inr (Or.inl rfl)⟩
      | ok s =>
        cases hpq : pool.permissions with
        | error e0 =>
          exact ⟨e0, by simp only [Bundle.fetch, hpp, hps, hpq]; rfl, Or.inr (Or.inr rfl)⟩
        | ok q =>
          rcases h with ⟨e, he⟩ | ⟨e, he⟩ | ⟨e, he⟩
          · rw [hpp] at he; cases he
          · rw [hps] at he; cases he
          · rw [hpq] at he; cases he


/-- Witness for C7 at concrete providers. -/
theorem fetch_all_or_nothing_witness :
    Bundle.fetch (⟨⟩ : NoMetadata) poolOk = .ok bundleA ∧
    ∃ e, Bundle.fetch (⟨⟩ : NoMetadata) poolFail = .error e ∧
      (poolFail.proposals = .error e ∨ poolFail.sessions = .error e ∨
        poolFail.permissions = .error e) := by
  constructor
  · exact (fetch_all_or_nothing (⟨⟩ : NoMetadata) poolOk).1 sampleProposals sampleSessions samplePermissions
      rfl rfl rfl
  · exact (fetch_all_or_nothing (⟨⟩ : NoMetadata) poolFail).2 (Or.inr (Or.inl ⟨_, rfl⟩))

/-! Claims about the refresher and startup.
-/


theorem refresherSchedule_deadline (polling : Nat) :
    ∀ (durs : List Nat) (d pc k : Nat), k < durs.length →
      ((refresherSchedule d pc polling durs).getD k (0, 0, 0)).1 = d + k * polling := by
  intro durs
  induction durs with
  | nil => intro d pc k hk; simp at hk
  | cons x rest ih =>
    intro d pc k hk
    cases k with
    | zero => simp [refresherSchedule]
    | succ k2 =>
      have step := ih (d + polling) (sleep_until pc d + x) k2 (by simpa using hk)
      simp only [refresherSchedule, List.getD_cons_succ]
      rw [step, Nat.succ_mul]
      omega

theorem refresherSchedule_fire (polling : Nat) :
    ∀ (durs : List Nat) (d pc k : Nat), k + 1 < durs.length →
      ((refresherSchedule d pc polling durs).getD (k + 1) (0, 0, 0)).2.1 =
        sleep_until (((refresherSchedule d pc polling durs).getD k (0, 0, 0)).2.2)
          (((refresherSchedule d pc polling durs).getD (k + 1) (0, 0, 0)).1) := by
  intro durs
  induction durs with
  | nil => intro d pc k hk; simp at hk
  | cons x rest ih =>
    intro d pc k hk
    cases k with
    | zero =>
      cases rest with
      | nil => simp at hk
      | cons y rest2 => simp [refresherSchedule]
    | succ k2 =>
      have step := ih (d + polling) (sleep_until pc d + x) k2 (by simpa using hk)
      simpa only [refresherSchedule, List.getD_cons_succ] using step

/-- C8: the deadline of tick k is start + (k+1) * interval, a function of the
previous deadline only (the formula does not mention the tick durations); the next
tick fires at sleep_until of the previous completion and its own deadline, so a
tick whose completion overruns the next deadline is followed immediately by the
next tick at that completion time. -/
theorem update_bundle_timing (start polling : Nat) (durs : List Nat) (k : Nat)
    (hk : k < durs.length) :
    ((update_bundle_schedule start polling durs).getD k (0, 0, 0)).1 =
      start + (k + 1) * polling ∧
    (k + 1 < durs.length →
      ((update_bundle_schedule start polling durs).getD (k + 1) (0, 0, 0)).2.1 =
        sleep_until (((update_bundle_schedule start polling durs).getD k (0, 0, 0)).2.2)
          (start + (k + 2) * polling) ∧
      (start + (k + 2) * polling ≤
          ((update_bundle_schedule start polling durs).getD k (0, 0, 0)).2.2 →
        ((update_bundle_schedule start polling durs).getD (k + 1) (0, 0, 0)).2.1 =
          ((update_bundle_schedule start polling durs).getD k (0, 0, 0)).2.2)) := by
  have hd := refresherSchedule_deadline polling durs (start + polling) start k hk
  constructor
  · rw [update_bundle_schedule, hd]
    ring
  · intro hk1
    have hd1 := refresherSchedule_deadline polling durs (start + polling) start (k + 1) hk1
    have hf := refresherSchedule_fire polling durs (start + polling) start k hk1
    have hdl : (start + polling) + (k + 1) * polling = start + (k + 2) * polling := by
      ring
    constructor
    · rw [update_bundle_schedule, hf, hd1, hdl]
    · intro hover
      rw [update_bundle_schedule, hf, hd1, hdl]
      exact Nat.max_eq_left hover

/-- Witness for C8 on a concrete schedule with an overrunning second tick. -/
theorem update_bundle_timing_witness :
    ((update_bundle_schedule 0 60 [10, 200, 5]).getD 1 (0, 0, 0)).1 = 120 ∧
    ((update_bundle_schedule 0 60 [10, 200, 5]).getD 2 (0, 0, 0)).2.1 = 320 := by
  have h := update_bundle_timing 0 60 [10, 200, 5] 1 (by decide)
  constructor
  · exact h.1
  · have h2 := (h.2 (by decide)).2 (by decide)
    rw [h2]
    rfl

/-- C1 (counterexample): at a concrete tick whose fetch fails, the refresher
evaluates to none — it has no continuation state whatsoever (none = some st is
absurd for every st), so the claim that it retains the previous pair and continues
to the next scheduled tick is false: the unwrap panics and the task terminates. -/
theorem update_bundle_tick_failure_no_continuation :
    update_bundle_tick (α := NoMetadata) 60 120 (.error (.connection "ispyb down")) = none ∧
    (∃ st : BundleFile NoMetadata × Nat,
        update_bundle_tick 60 120 (.error (.connection "ispyb down")) = some st) = False := by
  refine ⟨rfl, eq_false ?_⟩
  rintro ⟨st, h⟩
  simp [update_bundle_tick] at h

/-- C1 (amended): on a tick whose data fetch fails or whose serialization fails,
the refresher terminates (the unwrap panics, and main propagates the panic), and it
never writes to CurrentState on such a tick — the previously held pair is left in
place but no further tick occurs. -/
theorem update_bundle_tick_failure_terminates {α : Type} [MetaValue α]
    (polling nextFetch : Nat) (res : Except SqlError (Bundle α))
    (h : (∃ e, res = .error e) ∨
      (∃ b msg, res = .ok b ∧ BundleFile.tryFrom b = .error msg)) :
    update_bundle_tick polling nextFetch res = none := by
  rcases h with ⟨e, rfl⟩ | ⟨b, msg, rfl, hb⟩
  · rfl
  · simp [update_bundle_tick, hb]

set_option maxHeartbeats 1000000 in
/-- Witness for the amended C1 at concrete failing ticks of both kinds. -/
theorem update_bundle_tick_failure_terminates_witness :
    update_bundle_tick (α := NoMetadata) 60 120 (.error (.connection "ispyb down")) = none ∧
    update_bundle_tick 60 120 (.ok bundleBad) = none :=
  ⟨update_bundle_tick_failure_terminates 60 120 _ (Or.inl ⟨_, rfl⟩),
   update_bundle_tick_failure_terminates 60 120 _ (Or.inr ⟨bundleBad, "unencodable", rfl, rfl⟩)⟩

/-- C9: a failing initial fetch or initial serialization is fatal before serving
starts, and serving begins exactly with the successfully built initial pair in
CurrentState. -/
theorem main_startup_spec {α : Type} [MetaValue α] :
    (∀ e : SqlError, main_startup (α := α) (.error e) = .fatal) ∧
    (∀ (b : Bundle α) msg, BundleFile.tryFrom b = .error msg →
      main_startup (.ok b) = .fatal) ∧
    (∀ (b : Bundle α) bf, BundleFile.tryFrom b = .ok bf →
      main_startup (.ok b) = .serving bf) := by
  refine ⟨fun e => rfl, fun b msg hb => ?_, fun b bf hb => ?_⟩
  · simp [main_startup, fetch_initial_bundle, hb]
  · simp [main_startup, fetch_initial_bundle, hb]

set_option maxHeartbeats 1000000 in
/-- Witness for C9 at concrete startup outcomes of all three kinds. -/
theorem main_startup_spec_witness :
    main_startup (α := NoMetadata) (.error (.connection "ispyb unreachable")) = .fatal ∧
    main_startup (.ok bundleBad) = .fatal ∧
    main_startup (.ok bundleA) = .serving bfA :=
  ⟨(main_startup_spec).1 (.connection "ispyb unreachable"),
   (main_startup_spec).2.1 bundleBad "unencodable" rfl,
   (main_startup_spec).2.2 bundleA bfA rfl⟩


/-! Claims about the serving front.
-/


/-- C2 (amended): with a stable current pair, every response carries the quoted
revision as ETag header and is 304 or 200, never an error; it is 304 exactly when
the If-None-Match header is present and weakly matches the current tag, with empty
body, and 200 with the full archive body otherwise — in particular for an absent
header, a malformed one, or one with no weakly matching tag. -/
theorem bundle_endpoint_conditional {α : Type} (p : BundleFile α) (h : Option String) :
    (bundle_endpoint_raw p p h).etagHeader = quoteETag p.bundle.revision ∧
    ((bundle_endpoint_raw p p h).status = 304 ∨ (bundle_endpoint_raw p p h).status = 200) ∧
    ((bundle_endpoint_raw p p h).status = 304 ↔
      ∃ s, h = some s ∧
        (decodeIfNoneMatch s).matchesWeak ⟨false, p.bundle.revision⟩ = true) ∧
    (bundle_endpoint_raw p p h).body =
      (if (bundle_endpoint_raw p p h).status = 304 then Body.empty
       else Body.archive p.file) := by
  cases h with
  | none =>
    refine ⟨rfl, Or.inr rfl, ⟨fun hs => by simp [bundle_endpoint_raw, bundle_endpoint] at hs, ?_⟩, rfl⟩
    rintro ⟨s2, hs2, _⟩
    exact Option.noConfusion hs2
  | some s =>
    have key : bundle_endpoint_raw p p (some s) =
        (if (decodeIfNoneMatch s).matchesWeak ⟨false, p.bundle.revision⟩
         then ⟨304, quoteETag p.bundle.revision, Body.empty⟩
         else ⟨200, quoteETag p.bundle.revision, Body.archive p.file⟩) := by
      simp [bundle_endpoint_raw, bundle_endpoint, IfNoneMatch.preconditionPasses]
    cases hb : (decodeIfNoneMatch s).matchesWeak ⟨false, p.bundle.revision⟩ with
    | true =>
      rw [key, if_pos hb]
      exact ⟨rfl, Or.inl rfl, ⟨fun _ => ⟨s, rfl, hb⟩, fun _ => rfl⟩, rfl⟩
    | false =>
      rw [key, if_neg (by simp [hb])]
      refine ⟨rfl, Or.inr rfl, ⟨fun hs => by simp at hs, ?_⟩, rfl⟩
      rintro ⟨s2, hs2, hm2⟩
      cases hs2
      simp [hb] at hm2

set_option maxHeartbeats 4000000 in
/-- Witness for the amended C2: a matching tag yields 304, an absent header yields
200, and a malformed header value also yields 200 rather than a request error. -/
theorem bundle_endpoint_conditional_witness :
    (bundle_endpoint_raw bfA bfA (some (quoteETag bundleA.revision))).status = 304 ∧
    (bundle_endpoint_raw bfA bfA none).status = 200 ∧
    (bundle_endpoint_raw bfA bfA (some "gar bage")).status = 200 := by
  refine ⟨?_, ?_, ?_⟩
  · exact (bundle_endpoint_conditional bfA (some (quoteETag bundleA.revision))).2.2.1.mpr
      ⟨quoteETag bundleA.revision, rfl, by decide⟩
  · rcases (bundle_endpoint_conditional bfA (none : Option String)).2.1 with h304 | h200
    · rcases (bundle_endpoint_conditional bfA (none : Option String)).2.2.1.mp h304 with
        ⟨s2, hs2, _⟩
      exact Option.noConfusion hs2
    · exact h200
  · rcases (bundle_endpoint_conditional bfA (some "gar bage")).2.1 with h304 | h200
    · rcases (bundle_endpoint_conditional bfA (some "gar bage")).2.2.1.mp h304 with
        ⟨s2, hs2, hm2⟩
      cases hs2
      exact absurd hm2 (by decide)
    · exact h200

set_option maxHeartbeats 4000000 in
/-- C2 (counterexample): the request header W/"E", the weak form of the current
tag E, contains no tag strongly matching E, so the claim as stated prescribes a 200
response with the full body; the code instead answers 304, because the headers
crate compares If-None-Match tags weakly. -/
theorem conditional_get_weak_not_strong :
    headerHasStrongMatch ("W/\"" ++ bundleA.revision ++ "\"") bundleA.revision = false ∧
    (bundle_endpoint_raw bfA bfA (some ("W/\"" ++ bundleA.revision ++ "\""))).status = 304 := by
  constructor
  · decide
  · decide


set_option maxHeartbeats 4000000 in
/-- C3 (code bug): because bundle_endpoint acquires the read lock once for the
ETag and again for the body, a swap between the two acquisitions is an admissible
interleaving, and it yields a 200 response pairing the revision of the first pair
with the archive of the second pair — a combination matching no single element of the
history. -/
theorem bundle_endpoint_torn_read :
    runWithInterleaving [bfA, bfB] 0 1 none = some (bundle_endpoint bfA bfB none) ∧
    (bundle_endpoint bfA bfB none).status = 200 ∧
    ¬ ∃ bf ∈ [bfA, bfB],
        (bundle_endpoint bfA bfB none).etagHeader = quoteETag bf.bundle.revision ∧
        (bundle_endpoint bfA bfB none).body = Body.archive bf.file := by
  refine ⟨rfl, rfl, ?_⟩
  rintro ⟨bf, hmem, hetag, hbody⟩
  have hresp : bundle_endpoint bfA bfB none =
      ⟨200, quoteETag bfA.bundle.revision, Body.archive bfB.file⟩ := rfl
  rw [hresp] at hetag hbody
  simp only [List.mem_cons, List.not_mem_nil, or_false] at hmem
  rcases hmem with rfl | rfl
  · simp only [Body.archive.injEq] at hbody
    have hdata := congrArg
      (fun t => (t.entries.getD 1 ⟨⟨0, false⟩, "", []⟩).data) hbody
    exact absurd hdata (by decide)
  · have hrevs : quoteETag bfA.bundle.revision = quoteETag bfB.bundle.revision := hetag
    exact absurd hrevs (by decide)

/-- C10: a request carrying If-None-Match: * receives 304 with empty body and the
current quoted revision as ETag header, although the literal * differs from that
entity tag. -/
theorem if_none_match_wildcard {α : Type} (p : BundleFile α) :
    bundle_endpoint_raw p p (some "*") =
      ⟨304, quoteETag p.bundle.revision, Body.empty⟩ ∧
    "*" ≠ quoteETag p.bundle.revision := by
  constructor
  · rfl
  · intro hcontr
    have hlen := congrArg String.length hcontr
    have hq : ("\"" : String).length = 1 := rfl
    have hstar : ("*" : String).length = 1 := rfl
    rw [quoteETag] at hlen
    rw [String.length_append, String.length_append, hq, hstar] at hlen
    omega

end Bundler
